import Mathlib

/-!
Verification of the control logic of `lightsworkshop` (src/main.js): the
angle-to-color step table, the polar slider positioning and its inverse,
the auto-rotate timer, the pointer drag state machine, and the intensity
slider handler.  Machine floating-point numbers are modelled by `ℚ` (for
the purely arithmetic paths) and by `ℝ` (for the trigonometric paths);
the JavaScript `NaN` produced by a failed `parseInt` is modelled by
`none : Option ℤ`, and NaN-propagation through arithmetic by
`Option.map`.
-/

/-- A `(lightColorValue, cssColor, boxShadowColor)` triple, the three
outputs that `setLightAndUIFromAngle` computes from an angle. -/
abbrev ColorTriple := ℕ × String × String

/-- The pure core of `setLightAndUIFromAngle` (src/main.js lines 164-208):
the chain of `if/else if` range tests mapping a degree value to the light
color, the CSS background color and the box-shadow color.  The first band
leaves the box-shadow at its initialised default `"white"`, and a value
matching no branch (deg > 360) keeps all three defaults. -/
def setLightAndUIFromAngle {α : Type} [LinearOrderedField α] (deg : α) : ColorTriple :=
  if deg < 40 then (0xFFFFFF, "white", "white")
  else if deg < 80 then (0xadd8e6, "lightblue", "lightblue")
  else if deg < 120 then (0xF78787, "red", "red")
  else if deg < 160 then (0x90EE90, "lightgreen", "lightgreen")
  else if deg < 200 then (0xffff00, "yellow", "yellow")
  else if deg < 240 then (0xffa500, "orange", "orange")
  else if deg < 280 then (0xa52a2a, "brown", "brown")
  else if deg < 320 then (0xa52a2a, "purple", "purple")
  else if deg ≤ 360 then (0xcc6699, "#cc6699", "pink")
  else (0xFFFFFF, "white", "white")

/-- Modelled from the spec: the ordered band table of
`(upper-bound-degree, color triple)` pairs with boundaries at
40/80/120/160/200/240/280/320. -/
def bandTable : List (ℚ × ColorTriple) :=
  [(40, (0xFFFFFF, "white", "white")),
   (80, (0xadd8e6, "lightblue", "lightblue")),
   (120, (0xF78787, "red", "red")),
   (160, (0x90EE90, "lightgreen", "lightgreen")),
   (200, (0xffff00, "yellow", "yellow")),
   (240, (0xffa500, "orange", "orange")),
   (280, (0xa52a2a, "brown", "brown")),
   (320, (0xa52a2a, "purple", "purple"))]

/-- Modelled from the spec: return the color of the band whose upper bound
is the first strictly greater than `deg`; a value at a boundary therefore
falls through to the next band.  The final band is the one reached when no
tabulated bound exceeds `deg`, and it applies up to 360 inclusive. -/
def specAngleToColor (deg : ℚ) : ColorTriple :=
  match bandTable.find? (fun b => decide (deg < b.1)) with
  | some b => b.2
  | none => if deg ≤ 360 then (0xcc6699, "#cc6699", "pink")
            else (0xFFFFFF, "white", "white")

example : setLightAndUIFromAngle (0 : ℚ) = (0xFFFFFF, "white", "white") := by decide
example : setLightAndUIFromAngle (40 : ℚ) = (0xadd8e6, "lightblue", "lightblue") := by decide
example : setLightAndUIFromAngle (360 : ℚ) = (0xcc6699, "#cc6699", "pink") := by decide
example : specAngleToColor 360 = (0xcc6699, "#cc6699", "pink") := by decide
example : specAngleToColor 119 = (0xF78787, "red", "red") := by decide

/-- C1: on the whole domain [0, 360] the `if/else if` chain of
`setLightAndUIFromAngle` agrees with the spec's band-table lookup (first
upper bound strictly greater than the input wins, boundaries fall to the
higher band), and 360 itself receives the last band's color. -/
theorem setLightAndUIFromAngle_eq_specAngleToColor (d : ℚ)
    (h0 : 0 ≤ d) (h1 : d ≤ 360) :
    setLightAndUIFromAngle d = specAngleToColor d ∧
    setLightAndUIFromAngle (360 : ℚ) = (0xcc6699, "#cc6699", "pink") := by
  refine ⟨?_, by decide⟩
  unfold setLightAndUIFromAngle specAngleToColor bandTable
  by_cases w40 : d < 40
  · simp [List.find?, w40]
  by_cases w80 : d < 80
  · simp [List.find?, w40, w80]
  by_cases w120 : d < 120
  · simp [List.find?, w40, w80, w120]
  by_cases w160 : d < 160
  · simp [List.find?, w40, w80, w120, w160]
  by_cases w200 : d < 200
  · simp [List.find?, w40, w80, w120, w160, w200]
  by_cases w240 : d < 240
  · simp [List.find?, w40, w80, w120, w160, w200, w240]
  by_cases w280 : d < 280
  · simp [List.find?, w40, w80, w120, w160, w200, w240, w280]
  by_cases w320 : d < 320
  · simp [List.find?, w40, w80, w120, w160, w200, w240, w280, w320]
  simp [List.find?, w40, w80, w120, w160, w200, w240, w280, w320, h1]

/-- C1 witness: the band-table agreement instantiated at 100 degrees. -/
theorem setLightAndUIFromAngle_eq_spec_witness :
    setLightAndUIFromAngle (100 : ℚ) = specAngleToColor 100 ∧
    setLightAndUIFromAngle (360 : ℚ) = (0xcc6699, "#cc6699", "pink") :=
  setLightAndUIFromAngle_eq_specAngleToColor 100 (by norm_num) (by norm_num)

/-- C9: the band for [240, 280) and the band for [280, 320) produce the same
light-color value 0xa52a2a while their CSS display colors differ
("brown" versus "purple"). -/
theorem brown_purple_bands_share_hex (d d' : ℚ)
    (h1 : 240 ≤ d) (h2 : d < 280) (h3 : 280 ≤ d') (h4 : d' < 320) :
    (setLightAndUIFromAngle d).1 = (setLightAndUIFromAngle d').1 ∧
    (setLightAndUIFromAngle d).2.1 ≠ (setLightAndUIFromAngle d').2.1 := by
  have e1 : setLightAndUIFromAngle d = (0xa52a2a, "brown", "brown") := by
    unfold setLightAndUIFromAngle
    have n1 : ¬ d < 40 := by linarith
    have n2 : ¬ d < 80 := by linarith
    have n3 : ¬ d < 120 := by linarith
    have n4 : ¬ d < 160 := by linarith
    have n5 : ¬ d < 200 := by linarith
    have n6 : ¬ d < 240 := by linarith
    simp [n1, n2, n3, n4, n5, n6, h2]
  have e2 : setLightAndUIFromAngle d' = (0xa52a2a, "purple", "purple") := by
    unfold setLightAndUIFromAngle
    have n1 : ¬ d' < 40 := by linarith
    have n2 : ¬ d' < 80 := by linarith
    have n3 : ¬ d' < 120 := by linarith
    have n4 : ¬ d' < 160 := by linarith
    have n5 : ¬ d' < 200 := by linarith
    have n6 : ¬ d' < 240 := by linarith
    have n7 : ¬ d' < 280 := by linarith
    simp [n1, n2, n3, n4, n5, n6, n7, h4]
  rw [e1, e2]
  exact ⟨rfl, by decide⟩

/-- C9 witness: instantiated at 250 and 300 degrees. -/
theorem brown_purple_bands_witness :
    (setLightAndUIFromAngle (250 : ℚ)).1 = (setLightAndUIFromAngle (300 : ℚ)).1 ∧
    (setLightAndUIFromAngle (250 : ℚ)).2.1 ≠ (setLightAndUIFromAngle (300 : ℚ)).2.1 :=
  brown_purple_bands_share_hex 250 300 (by norm_num) (by norm_num) (by norm_num) (by norm_num)

/-- C10: any input strictly above 360 matches no branch, so all three
outputs keep their initialised defaults (white light, white CSS, white
box-shadow); no error is raised. -/
theorem angle_above_360_defaults_white (d : ℚ) (h : 360 < d) :
    setLightAndUIFromAngle d = (0xFFFFFF, "white", "white") := by
  unfold setLightAndUIFromAngle
  have n1 : ¬ d < 40 := by linarith
  have n2 : ¬ d < 80 := by linarith
  have n3 : ¬ d < 120 := by linarith
  have n4 : ¬ d < 160 := by linarith
  have n5 : ¬ d < 200 := by linarith
  have n6 : ¬ d < 240 := by linarith
  have n7 : ¬ d < 280 := by linarith
  have n8 : ¬ d < 320 := by linarith
  have n9 : ¬ d ≤ 360 := by linarith
  simp [n1, n2, n3, n4, n5, n6, n7, n8, n9]

/-- C10 witness: instantiated at 400 degrees. -/
theorem angle_above_360_defaults_white_witness :
    setLightAndUIFromAngle (400 : ℚ) = (0xFFFFFF, "white", "white") :=
  angle_above_360_defaults_white 400 (by norm_num)

/-- JavaScript `Math.trunc`-style truncation used by the `%` operator:
round toward zero. -/
def jsTrunc (q : ℚ) : ℤ := if 0 ≤ q then ⌊q⌋ else ⌈q⌉

/-- The JavaScript remainder operator `x % y` on rationals: the remainder
has the sign of the dividend (truncated division). -/
def jsMod (x y : ℚ) : ℚ := x - y * jsTrunc (x / y)

lemma jsMod_eq_floor (x : ℚ) (hx : 0 ≤ x) :
    jsMod x 360 = x - 360 * ⌊x / 360⌋ := by
  unfold jsMod jsTrunc
  rw [if_pos (by positivity)]

lemma jsMod_eq_fract (x : ℚ) (hx : 0 ≤ x) :
    jsMod x 360 = 360 * Int.fract (x / 360) := by
  rw [jsMod_eq_floor x hx, Int.fract]
  field_simp

lemma jsMod_nonneg (x : ℚ) (hx : 0 ≤ x) : 0 ≤ jsMod x 360 := by
  rw [jsMod_eq_fract x hx]
  exact mul_nonneg (by norm_num) (Int.fract_nonneg _)

lemma jsMod_lt (x : ℚ) (hx : 0 ≤ x) : jsMod x 360 < 360 := by
  rw [jsMod_eq_fract x hx]
  have h := Int.fract_lt_one (x / 360)
  linarith

lemma jsMod_eq_self (x : ℚ) (h0 : 0 ≤ x) (h1 : x < 360) : jsMod x 360 = x := by
  rw [jsMod_eq_floor x h0]
  have hf : ⌊x / 360⌋ = 0 := by
    rw [Int.floor_eq_zero_iff]
    constructor
    · positivity
    · rw [div_lt_one (by norm_num : (0:ℚ) < 360)]
      exact h1
  rw [hf]
  ring

lemma jsMod_absorb (x k : ℚ) (hx : 0 ≤ x) (hk : 0 ≤ k) :
    jsMod (jsMod x 360 + k) 360 = jsMod (x + k) 360 := by
  have hm : 0 ≤ x - 360 * ⌊x / 360⌋ := by
    have h := jsMod_nonneg x hx
    rwa [jsMod_eq_floor x hx] at h
  rw [jsMod_eq_floor x hx, jsMod_eq_floor _ (by linarith), jsMod_eq_floor _ (by linarith)]
  have hdiv : (x - 360 * (⌊x / 360⌋ : ℚ) + k) / 360 = (x + k) / 360 - (⌊x / 360⌋ : ℚ) := by
    ring
  rw [hdiv, Int.floor_sub_int]
  push_cast
  ring

/-- The angle update of the `setInterval` callback inside `initColorControl`
(src/main.js line 269): `deg = (deg + 1) % 360`. -/
def tickAngle (d : ℚ) : ℚ := jsMod (d + 1) 360

lemma tickAngle_iterate (k : ℕ) (d : ℚ) (h0 : 0 ≤ d) (h1 : d < 360) :
    tickAngle^[k] d = jsMod (d + k) 360 := by
  induction k with
  | zero => simpa using (jsMod_eq_self d h0 h1).symm
  | succ n ih =>
      rw [Function.iterate_succ_apply', ih]
      unfold tickAngle
      rw [jsMod_absorb (d + n) 1 (by positivity) (by norm_num)]
      push_cast
      ring_nf

lemma tickAngle_iterate_360 (d : ℚ) (h0 : 0 ≤ d) (h1 : d < 360) :
    tickAngle^[360] d = d := by
  rw [tickAngle_iterate 360 d h0 h1]
  have h2 : jsMod (d + 360) 360 = jsMod d 360 := by
    rw [jsMod_eq_floor _ (by linarith), jsMod_eq_floor d h0]
    have hdiv : (d + 360) / 360 = d / 360 + (1 : ℤ) := by push_cast; ring
    rw [hdiv, Int.floor_add_int]
    push_cast
    ring
  push_cast
  rw [h2, jsMod_eq_self d h0 h1]

/-- The longest run of leading decimal digits of a character list. -/
def leadingDigits (l : List Char) : List Char := l.takeWhile Char.isDigit

/-- Value of a digit run read in base 10. -/
def digitsToNat (l : List Char) : ℕ := l.foldl (fun acc c => 10 * acc + (c.toNat - 48)) 0

/-- JavaScript `parseInt(str, 10)`: skip leading spaces, accept an optional
sign, then read the longest leading digit run; `none` models the `NaN`
returned when no digit is found. -/
def parseIntJs (s : String) : Option ℤ :=
  match s.data.dropWhile (fun c => c = ' ') with
  | '-' :: rest =>
      if (leadingDigits rest).isEmpty then none
      else some (-(digitsToNat (leadingDigits rest) : ℤ))
  | '+' :: rest =>
      if (leadingDigits rest).isEmpty then none
      else some ((digitsToNat (leadingDigits rest) : ℤ))
  | l =>
      if (leadingDigits l).isEmpty then none
      else some ((digitsToNat (leadingDigits l) : ℤ))

example : parseIntJs "5" = some 5 := by decide
example : parseIntJs "10" = some 10 := by decide
example : parseIntJs "-3" = some (-3) := by decide
example : parseIntJs "abc" = none := by decide
example : parseIntJs "" = none := by decide

/-- The numeric mapping of the `oninput` handler installed by
`initIntensityControl` (src/main.js lines 317-322): keep the raw slider
value when it equals 1, otherwise `1 + sliderValue * 0.1`. -/
def intensityFromValue (v : ℤ) : ℚ := if v = 1 then (v : ℚ) else 1 + (v : ℚ) * (1 / 10)

/-- The mutable interface state of src/main.js: current angle of the
circular control, current light color with its two CSS colors, and the
light intensity (`none` models a `NaN` intensity). -/
structure LightState where
  deg : ℚ
  colorHex : ℕ
  cssColor : String
  shadowColor : String
  intensity : Option ℚ
  deriving Repr, DecidableEq

/-- Effect of `setLightAndUIFromAngle` on the state: record the angle and
the three computed colors. -/
def applyAngle (d : ℚ) (st : LightState) : LightState :=
  { st with
    deg := d
    colorHex := (setLightAndUIFromAngle d).1
    cssColor := (setLightAndUIFromAngle d).2.1
    shadowColor := (setLightAndUIFromAngle d).2.2 }

/-- One firing of the `setInterval` callback (src/main.js lines 268-273):
`deg = (deg + 1) % 360`, then the color pipeline. -/
def tickStep (st : LightState) : LightState := applyAngle (jsMod (st.deg + 1) 360) st

/-- The `oninput` handler of `initIntensityControl` (src/main.js lines
314-327).  When `parseInt` fails it returns `NaN`; `NaN !== 1` holds, so
the code computes `1 + NaN * 0.1 = NaN` and stores it — the `none` branch
of the `Option.map` models exactly this NaN propagation. -/
def intensityOnInput (s : String) (st : LightState) : LightState :=
  { st with intensity := (parseIntJs s).map intensityFromValue }

/-- Startup state: `lightColor = 0xFFFFFF`, `lightIntensity = 1`
(src/main.js lines 19-20), then `initColorControl` runs
`setLightAndUIFromAngle(0)` (line 264). -/
def initLightState : LightState :=
  applyAngle 0
    { deg := 0, colorHex := 0xFFFFFF, cssColor := "white", shadowColor := "white",
      intensity := some 1 }

/-- The UI events that mutate the light state. -/
inductive UIEvent where
  | tick : UIEvent
  | intensityInput (s : String) : UIEvent
  deriving Repr, DecidableEq

/-- Dispatch one UI event. -/
def uiStep (st : LightState) (e : UIEvent) : LightState :=
  match e with
  | .tick => tickStep st
  | .intensityInput s => intensityOnInput s st

/-- Run the system from startup through a list of UI events. -/
def runUI (es : List UIEvent) : LightState := es.foldl uiStep initLightState

/-- The light-color values of the color table (the default white is also
the first band's value). -/
def bandHexes : List ℕ :=
  [0xFFFFFF, 0xadd8e6, 0xF78787, 0x90EE90, 0xffff00, 0xffa500, 0xa52a2a, 0xcc6699]

/-- An event the real widgets can deliver: ticks, and intensity strings
that parse to an integer in the slider's 0..10 range (the HTML range
input named in the source comment on line 315). -/
def wellFormedEvent : UIEvent → Bool
  | .tick => true
  | .intensityInput s =>
      match parseIntJs s with
      | some v => decide (0 ≤ v ∧ v ≤ 10)
      | none => false

/-- C3: the handler does not reject non-numeric input.  At the input
"abc", `parseInt` yields NaN, `NaN !== 1` holds, `1 + NaN * 0.1` is NaN,
and the handler stores the NaN intensity — the state is changed, not left
unchanged. -/
theorem intensityOnInput_nan_behavior :
    parseIntJs "abc" = none ∧
    (intensityOnInput "abc" initLightState).intensity = none ∧
    intensityOnInput "abc" initLightState ≠ initLightState := by
  refine ⟨by decide, by decide, ?_⟩
  intro h
  have h2 := congrArg LightState.intensity h
  revert h2
  decide

/-- C4: whenever the delivered string parses to the integer `v`, the new
intensity is `1` for `v = 1` and `1 + v/10` otherwise; in particular the
mapping sends 1 to 1, 5 to 1.5 and 10 to 2. -/
theorem initIntensityControl_mapping (st : LightState) (s : String) (v : ℤ)
    (h : parseIntJs s = some v) :
    (intensityOnInput s st).intensity
      = some (if v = 1 then 1 else 1 + (v : ℚ) / 10) ∧
    intensityFromValue 1 = 1 ∧
    intensityFromValue 5 = 3 / 2 ∧
    intensityFromValue 10 = 2 := by
  refine ⟨?_, by norm_num [intensityFromValue], by norm_num [intensityFromValue],
    by norm_num [intensityFromValue]⟩
  unfold intensityOnInput
  rw [h]
  have hmap : (some v).map intensityFromValue = some (intensityFromValue v) := rfl
  rw [hmap]
  refine congrArg some ?_
  unfold intensityFromValue
  by_cases hv : v = 1
  · simp [hv]
  · rw [if_neg hv, if_neg hv]
    ring

/-- C4 witness: the slider string "5" yields intensity 1.5. -/
theorem initIntensityControl_mapping_witness :
    (intensityOnInput "5" initLightState).intensity
      = some (if (5 : ℤ) = 1 then 1 else 1 + ((5 : ℤ) : ℚ) / 10) ∧
    intensityFromValue 1 = 1 ∧
    intensityFromValue 5 = 3 / 2 ∧
    intensityFromValue 10 = 2 :=
  initIntensityControl_mapping initLightState "5" 5 (by decide)

lemma setLightAndUIFromAngle_mem_bandHexes (d : ℚ) :
    (setLightAndUIFromAngle d).1 ∈ bandHexes := by
  unfold setLightAndUIFromAngle bandHexes
  split_ifs <;> simp

/-- The strengthened state invariant: tabulated light color, a real
(non-NaN) nonnegative intensity, and an angle in [0, 360). -/
def stateOK (st : LightState) : Prop :=
  st.colorHex ∈ bandHexes ∧ (∃ q, st.intensity = some q ∧ 0 ≤ q) ∧
    0 ≤ st.deg ∧ st.deg < 360

lemma stateOK_init : stateOK initLightState := by
  refine ⟨setLightAndUIFromAngle_mem_bandHexes 0, ⟨1, rfl, by norm_num⟩, le_rfl, ?_⟩
  show (0 : ℚ) < 360
  norm_num

lemma stateOK_step (st : LightState) (e : UIEvent)
    (hst : stateOK st) (he : wellFormedEvent e = true) : stateOK (uiStep st e) := by
  obtain ⟨hc, hi, hd0, hd1⟩ := hst
  cases e with
  | tick =>
      refine ⟨setLightAndUIFromAngle_mem_bandHexes _, ?_, ?_, ?_⟩
      · exact hi
      · exact jsMod_nonneg _ (by linarith)
      · exact jsMod_lt _ (by linarith)
  | intensityInput s =>
      obtain ⟨v, hp, hv⟩ : ∃ v, parseIntJs s = some v ∧ 0 ≤ v ∧ v ≤ 10 := by
        cases hp : parseIntJs s with
        | none => simp [wellFormedEvent, hp] at he
        | some v =>
            refine ⟨v, rfl, ?_⟩
            have he2 := he
            simp only [wellFormedEvent] at he2
            rw [hp] at he2
            exact of_decide_eq_true he2
      refine ⟨hc, ⟨intensityFromValue v, ?_, ?_⟩, hd0, hd1⟩
      · show ((parseIntJs s).map intensityFromValue) = some (intensityFromValue v)
        rw [hp]
        rfl
      · unfold intensityFromValue
        by_cases h1 : v = 1
        · simp [h1]
        · rw [if_neg h1]
          have : (0 : ℚ) ≤ (v : ℚ) := by exact_mod_cast hv.1
          linarith

lemma stateOK_foldl (es : List UIEvent) (st : LightState)
    (hst : stateOK st) (he : ∀ e ∈ es, wellFormedEvent e = true) :
    stateOK (es.foldl uiStep st) := by
  induction es generalizing st with
  | nil => exact hst
  | cons e rest ih =>
      rw [List.foldl_cons]
      exact ih (uiStep st e)
        (stateOK_step st e hst (he e (List.mem_cons_self e rest)))
        (fun x hx => he x (List.mem_cons_of_mem e hx))

/-- C5: after startup and any sequence of timer ticks and well-formed
intensity inputs (strings parsing to an integer in the slider's 0..10
range), the light color is one of the tabulated band values and the
intensity is a real number that is nonnegative (in particular not NaN). -/
theorem lightState_invariant (es : List UIEvent)
    (h : ∀ e ∈ es, wellFormedEvent e = true) :
    (runUI es).colorHex ∈ bandHexes ∧
    ∃ q, (runUI es).intensity = some q ∧ 0 ≤ q := by
  have hok := stateOK_foldl es initLightState stateOK_init h
  exact ⟨hok.1, hok.2.1⟩

/-- C5 witness: the trace [tick, slider input "5"]. -/
theorem lightState_invariant_witness :
    (runUI [UIEvent.tick, UIEvent.intensityInput "5"]).colorHex ∈ bandHexes ∧
    ∃ q, (runUI [UIEvent.tick, UIEvent.intensityInput "5"]).intensity = some q ∧ 0 ≤ q :=
  lightState_invariant [UIEvent.tick, UIEvent.intensityInput "5"] (by decide)

lemma tickStep_iterate_deg (n : ℕ) (st : LightState) :
    (tickStep^[n] st).deg = tickAngle^[n] st.deg := by
  induction n with
  | zero => rfl
  | succ k ih =>
      rw [Function.iterate_succ_apply', Function.iterate_succ_apply']
      show jsMod ((tickStep^[k] st).deg + 1) 360 = tickAngle (tickAngle^[k] st.deg)
      rw [ih]
      rfl

/-- C7: from any reachable angle (in [0, 360)) a timer tick adds exactly 1,
wrapping 359.x back below 1; the new angle is again in [0, 360); 360
consecutive ticks restore the starting angle; and the tick drives the
color pipeline, i.e. the stored light color is the color table applied to
the new angle. -/
theorem tickStep_spec (st : LightState) (h0 : 0 ≤ st.deg) (h1 : st.deg < 360) :
    (st.deg + 1 < 360 → (tickStep st).deg = st.deg + 1) ∧
    (360 ≤ st.deg + 1 → (tickStep st).deg = st.deg + 1 - 360) ∧
    0 ≤ (tickStep st).deg ∧ (tickStep st).deg < 360 ∧
    (tickStep^[360] st).deg = st.deg ∧
    (tickStep st).colorHex = (setLightAndUIFromAngle ((tickStep st).deg)).1 := by
  refine ⟨?_, ?_, jsMod_nonneg _ (by linarith), jsMod_lt _ (by linarith), ?_, rfl⟩
  · intro hlt
    exact jsMod_eq_self _ (by linarith) hlt
  · intro hge
    show jsMod (st.deg + 1) 360 = st.deg + 1 - 360
    rw [jsMod_eq_floor _ (by linarith)]
    have hf : ⌊(st.deg + 1) / 360⌋ = 1 := by
      rw [Int.floor_eq_iff]
      constructor
      · push_cast
        rw [le_div_iff (by norm_num : (0:ℚ) < 360)]
        linarith
      · push_cast
        rw [div_lt_iff (by norm_num : (0:ℚ) < 360)]
        linarith
    rw [hf]
    push_cast
    ring
  · rw [tickStep_iterate_deg 360 st]
    exact tickAngle_iterate_360 st.deg h0 h1

/-- C7 witness: instantiated at the startup state (angle 0). -/
theorem tickStep_spec_witness :
    0 ≤ initLightState.deg ∧
    ((tickStep^[360]) initLightState).deg = initLightState.deg :=
  ⟨le_rfl, (tickStep_spec initLightState le_rfl (by norm_num [initLightState, applyAngle])).2.2.2.2.1⟩

/-- The guard of `initIntensityControl` (src/main.js lines 311-328): the
handler is installed only when `document.getElementById` finds the
element; nothing else in `main` depends on the result. -/
def initIntensityControl (el : Option Unit) : Option (String → LightState → LightState) :=
  el.map (fun _ => intensityOnInput)

/-- What `main` (src/main.js lines 333-356) wires up: the color control is
wired unconditionally, the intensity handler only when its element
exists. -/
structure PageWiring where
  colorControlWired : Bool
  intensityHandler : Option (String → LightState → LightState)

/-- The straight-line initialisation sequence of `main`, parametrised by
whether the intensity element is present. -/
def mainInit (intensityEl : Option Unit) : PageWiring :=
  { colorControlWired := true, intensityHandler := initIntensityControl intensityEl }

/-- An intensity-slider input event reaches the handler only if one was
wired. -/
def dispatchIntensityInput (w : PageWiring) (s : String) (st : LightState) : LightState :=
  match w.intensityHandler with
  | none => st
  | some f => f s st

/-- C8: with the intensity element absent, `main` still completes (the
color control is wired), no intensity handler is installed, and intensity
input events change no state. -/
theorem missing_intensity_element_safe :
    (mainInit none).colorControlWired = true ∧
    (mainInit none).intensityHandler = none ∧
    ∀ s st, dispatchIntensityInput (mainInit none) s st = st :=
  ⟨rfl, rfl, fun _ _ => rfl⟩

/-- JavaScript `Math.atan2(y, x)`: the argument of the point `(x, y)`,
in the interval (-pi, pi]. -/
noncomputable def jsAtan2 (y x : ℝ) : ℝ := Complex.arg (x + y * Complex.I)

/-- JavaScript truncation toward zero, on reals. -/
noncomputable def jsTruncR (r : ℝ) : ℝ := if 0 ≤ r then (⌊r⌋ : ℝ) else (⌈r⌉ : ℝ)

/-- The JavaScript remainder operator `x % y` on reals. -/
noncomputable def jsModR (x y : ℝ) : ℝ := x - y * jsTruncR (x / y)

/-- The x offset computed by `positionSlider` (src/main.js line 235)
before pixel rounding: `ORBIT_RADIUS * sin(rad)` with
`rad = deg * PI / 180`. -/
noncomputable def positionForX (deg : ℝ) : ℝ := 27 * Real.sin (deg * Real.pi / 180)

/-- The y offset computed by `positionSlider` (src/main.js line 236)
before pixel rounding: `ORBIT_RADIUS * -cos(rad)` (screen y grows
downward). -/
noncomputable def positionForY (deg : ℝ) : ℝ := 27 * -Real.cos (deg * Real.pi / 180)

/-- `Math.round(ORBIT_RADIUS * sin(rad))`, the pixel x of the slider
handle; Lean's `round` is `⌊x + 1/2⌋`, which matches `Math.round`. -/
noncomputable def positionSliderX (deg : ℝ) : ℤ := round (positionForX deg)

/-- `Math.round(ORBIT_RADIUS * -cos(rad))`, the pixel y of the slider
handle. -/
noncomputable def positionSliderY (deg : ℝ) : ℤ := round (positionForY deg)

/-- The pointer-to-angle conversion of the `mousemove` handler
(src/main.js lines 295-299), as a function of the pointer offset from the
widget center: `(-atan2(xo, yo) / (PI / 180) + 180) % 360`. -/
noncomputable def angleForOffsets (xo yo : ℝ) : ℝ :=
  jsModR (-(jsAtan2 xo yo) / (Real.pi / 180) + 180) 360

lemma jsAtan2_on_circle (θ : ℝ) (h0 : 0 ≤ θ) (h2 : θ < 2 * Real.pi) :
    jsAtan2 (27 * Real.sin θ) (27 * -Real.cos θ) = Real.pi - θ := by
  unfold jsAtan2
  have hz : ((27 * -Real.cos θ : ℝ) : ℂ) + ((27 * Real.sin θ : ℝ) : ℂ) * Complex.I
      = ((27 : ℝ) : ℂ) *
        (Complex.cos ((Real.pi - θ : ℝ) : ℂ) + Complex.sin ((Real.pi - θ : ℝ) : ℂ) * Complex.I) := by
    rw [← Complex.ofReal_cos, ← Complex.ofReal_sin, Real.cos_pi_sub, Real.sin_pi_sub]
    push_cast
    ring
  rw [hz]
  exact Complex.arg_mul_cos_add_sin_mul_I (by norm_num)
    ⟨by linarith [Real.pi_pos], by linarith⟩

/-- C2: converting an angle in [0, 360) to the point `(R sin θ, -R cos θ)`
on the slider circle and converting that offset back through the
`mousemove` handler's atan2 formula returns exactly the original angle
(real arithmetic; floating-point rounding is the only deviation in the
browser). -/
theorem angleFor_positionFor_roundtrip (a : ℝ) (h0 : 0 ≤ a) (h1 : a < 360) :
    angleForOffsets (positionForX a) (positionForY a) = a := by
  have hπ : (0 : ℝ) < Real.pi := Real.pi_pos
  have hθ0 : 0 ≤ a * Real.pi / 180 := by
    apply div_nonneg (mul_nonneg h0 hπ.le)
    norm_num
  have hθ2 : a * Real.pi / 180 < 2 * Real.pi := by
    rw [div_lt_iff (by norm_num : (0:ℝ) < 180)]
    nlinarith
  have key : jsAtan2 (positionForX a) (positionForY a) = Real.pi - a * Real.pi / 180 := by
    unfold positionForX positionForY
    exact jsAtan2_on_circle (a * Real.pi / 180) hθ0 hθ2
  unfold angleForOffsets
  rw [key]
  have harg : -(Real.pi - a * Real.pi / 180) / (Real.pi / 180) + 180 = a := by
    field_simp
    ring
  rw [harg]
  unfold jsModR jsTruncR
  rw [if_pos (div_nonneg h0 (by norm_num : (0:ℝ) ≤ 360))]
  have hf : ⌊a / 360⌋ = 0 := by
    rw [Int.floor_eq_zero_iff]
    constructor
    · exact div_nonneg h0 (by norm_num)
    · rw [div_lt_one (by norm_num : (0:ℝ) < 360)]
      exact h1
  rw [hf]
  push_cast
  ring

/-- C2 witness: the round trip instantiated at 90 degrees. -/
theorem angleFor_positionFor_roundtrip_witness :
    angleForOffsets (positionForX 90) (positionForY 90) = 90 :=
  angleFor_positionFor_roundtrip 90 (by norm_num) (by norm_num)

/-- The state owned by `initColorControl` (src/main.js lines 254-305): the
`mdown` drag flag, the current angle, the colors written by
`setLightAndUIFromAngle` and the slider pixel position written by
`positionSlider`. -/
structure DragState where
  mdown : Bool
  deg : ℝ
  colorHex : ℕ
  cssColor : String
  shadowColor : String
  sliderX : ℤ
  sliderY : ℤ

/-- The pointer events the circle widget handles. -/
inductive PointerEvent where
  | mousedown
  | mouseup
  | mouseleave
  | mousemove (clientX clientY : ℝ)

/-- Effect of `positionSlider(deg)` followed by `setLightAndUIFromAngle(deg)`
on the drag state. -/
noncomputable def applyAngleDrag (d : ℝ) (s : DragState) : DragState :=
  { s with
    deg := d
    colorHex := (setLightAndUIFromAngle d).1
    cssColor := (setLightAndUIFromAngle d).2.1
    shadowColor := (setLightAndUIFromAngle d).2.2
    sliderX := positionSliderX d
    sliderY := positionSliderY d }

/-- The four pointer handlers installed by `initColorControl`
(src/main.js lines 276-304), with `(elx, ely)` the widget's fixed page
offset: `mousedown` sets `mdown`, `mouseup` and `mouseleave` clear it, and
`mousemove` recomputes the angle from the pointer offset and reruns the
pipeline only while `mdown` holds. -/
noncomputable def dragStep (elx ely : ℝ) (s : DragState) : PointerEvent → DragState
  | .mousedown => { s with mdown := true }
  | .mouseup => { s with mdown := false }
  | .mouseleave => { s with mdown := false }
  | .mousemove cx cy =>
      if s.mdown then
        applyAngleDrag (angleForOffsets (cx - elx - 27) (cy - ely - 27)) s
      else s

/-- C6: the drag handler is a two-state machine.  A press enters the
dragging state; a release or leaving the widget enters the idle state; a
move while dragging (in particular right after a press) recomputes the
angle from the pointer offset and rewrites angle, colors and slider
position; a move while idle (in particular right after a release) changes
nothing. -/
theorem pointer_drag_state_machine (elx ely cx cy : ℝ) (s : DragState) :
    (dragStep elx ely s .mousedown).mdown = true ∧
    (dragStep elx ely s .mouseup).mdown = false ∧
    (dragStep elx ely s .mouseleave).mdown = false ∧
    (s.mdown = false → dragStep elx ely s (.mousemove cx cy) = s) ∧
    (s.mdown = true →
      dragStep elx ely s (.mousemove cx cy)
        = applyAngleDrag (angleForOffsets (cx - elx - 27) (cy - ely - 27)) s) ∧
    dragStep elx ely (dragStep elx ely s .mousedown) (.mousemove cx cy)
        = applyAngleDrag (angleForOffsets (cx - elx - 27) (cy - ely - 27))
            (dragStep elx ely s .mousedown) ∧
    dragStep elx ely (dragStep elx ely s .mouseup) (.mousemove cx cy)
        = dragStep elx ely s .mouseup := by
  refine ⟨rfl, rfl, rfl, ?_, ?_, ?_, ?_⟩
  · intro h
    simp [dragStep, h]
  · intro h
    simp [dragStep, h]
  · simp [dragStep]
  · simp [dragStep]

/-- An idle drag state with the startup angle and colors. -/
noncomputable def idleDragState : DragState :=
  { mdown := false, deg := 0, colorHex := 0xFFFFFF, cssColor := "white",
    shadowColor := "white", sliderX := 0, sliderY := -27 }

/-- C6 witness: a move while idle leaves the concrete idle state
unchanged. -/
theorem pointer_drag_state_machine_witness :
    idleDragState.mdown = false ∧
    dragStep 0 0 idleDragState (.mousemove 3 4) = idleDragState :=
  ⟨rfl, (pointer_drag_state_machine 0 0 3 4 idleDragState).2.2.2.1 rfl⟩
